import Mathlib

/-!
Verification of the OTP lifecycle manager (`class OTPManager` in the
repository's order-confirmation script).  The JavaScript class keeps an
in-memory `Map` from order ids to OTP records and exposes generation,
verification, status queries, resend, periodic cleanup and statistics.

Shallow embedding conventions:
* Timestamps (`Date.now()`) are natural numbers of milliseconds, passed
  explicitly as a `now` argument to each operation.
* The 4-digit code is stored in JS as a digit string produced from
  `Math.floor(1000 + Math.random() * 9000)`.  Since every generated code
  lies in [1000, 9999] it has no leading zeros, so string equality of
  codes coincides with numeric equality; we represent codes by their
  numeric value.  The random draw `Math.floor(Math.random() * 9000)`
  (a value in [0, 8999]) is modelled by `k % 9000` for an arbitrary
  oracle input `k : Nat`.
* The JS `Map` is an association list with JS `Map` semantics: `set`
  replaces in place the entry of an existing key and otherwise appends,
  `get` finds the entry, `delete` removes it.
* Each mutating method returns the updated store explicitly; `this`
  becomes the first argument.  `JavaScript`'s `a - b` on numbers can go
  negative, so where the source can produce a negative number
  (`active` in `getStatistics`) we use `Int`; `Math.max(0, a - b)` on
  timestamps coincides with truncated `Nat` subtraction.
-/

abbrev OrderId := Nat

/-- One OTP record as stored in `this.otpStore` (see `generateOTP`). -/
structure OtpRecord where
  otp : Nat
  phone : String
  attempts : Nat
  generatedAt : Nat
  expiresAt : Nat
  verified : Bool
  verifiedAt : Option Nat
deriving DecidableEq, Repr

/-- The `Map` of the manager: an association list keyed by order id. -/
abbrev OtpStore := List (OrderId × OtpRecord)

/-- `this.otpExpiry = 5 * 60 * 1000`. -/
def otpExpiry : Nat := 5 * 60 * 1000

/-- `this.maxAttempts = 3`. -/
def maxAttempts : Nat := 3

/-- The grace window `300000` used in `cleanupExpiredOTPs`. -/
def graceWindow : Nat := 300000

/-- `Map.prototype.get`. -/
def mapGet (s : OtpStore) (k : OrderId) : Option OtpRecord :=
  match s with
  | [] => none
  | p :: t => if p.1 = k then some p.2 else mapGet t k

/-- `Map.prototype.set`: replace in place, else append. -/
def mapSet (s : OtpStore) (k : OrderId) (v : OtpRecord) : OtpStore :=
  match s with
  | [] => [(k, v)]
  | p :: t => if p.1 = k then (k, v) :: t else p :: mapSet t k v

/-- `Map.prototype.delete`. -/
def mapDelete (s : OtpStore) (k : OrderId) : OtpStore :=
  match s with
  | [] => []
  | p :: t => if p.1 = k then mapDelete t k else p :: mapDelete t k

/-- The code drawn by `Math.floor(1000 + Math.random() * 9000)`,
with the random draw in [0, 8999] modelled by `k % 9000`. -/
def genCode (k : Nat) : Nat := 1000 + k % 9000

/-- `OTPManager.generateOTP(orderId, phoneNumber)`: store a fresh record
and return the code.  (`saveToStorage` and `sendOTPSMS` are a
persistence write-through and a fire-and-forget notification with no
effect on the store.) -/
def generateOTP (s : OtpStore) (orderId : OrderId) (phoneNumber : String)
    (k now : Nat) : OtpStore × Nat :=
  let otp := genCode k
  (mapSet s orderId
    { otp := otp, phone := phoneNumber, attempts := 0, generatedAt := now,
      expiresAt := now + otpExpiry, verified := false, verifiedAt := none },
   otp)

/-- Result shape of `verifyOTP`. -/
structure VerifyResult where
  success : Bool
  message : String
  remainingAttempts : Nat
deriving DecidableEq, Repr

/-- `OTPManager.verifyOTP(orderId, inputOTP)`. -/
def verifyOTP (s : OtpStore) (orderId : OrderId) (inputOTP now : Nat) :
    OtpStore × VerifyResult :=
  match mapGet s orderId with
  | none => (s, ⟨false, "OTP not found or expired", 0⟩)
  | some otpData =>
    if now > otpData.expiresAt then
      (mapDelete s orderId, ⟨false, "OTP has expired", 0⟩)
    else if otpData.attempts ≥ maxAttempts then
      (s, ⟨false, "Maximum OTP attempts exceeded", 0⟩)
    else
      let bumped : OtpRecord := { otpData with attempts := otpData.attempts + 1 }
      if bumped.otp = inputOTP then
        let done : OtpRecord := { bumped with verified := true, verifiedAt := some now }
        (mapSet s orderId done,
         ⟨true, "OTP verified successfully", maxAttempts - done.attempts⟩)
      else
        let remaining := maxAttempts - bumped.attempts
        (mapSet s orderId bumped,
         ⟨false,
          "Invalid OTP. " ++ toString remaining ++ " attempt" ++
            (if remaining ≠ 1 then "s" else "") ++ " remaining",
          remaining⟩)

/-- Result shape of `checkOTPStatus` (`exists` is a Lean keyword, so the
field is called `recordExists`). -/
structure StatusResult where
  recordExists : Bool
  verified : Bool
  expired : Bool
  attempts : Nat
  remainingAttempts : Nat
  timeRemaining : Nat
deriving DecidableEq, Repr

/-- `OTPManager.checkOTPStatus(orderId)`.  The store is returned
unchanged: the method body never writes.  `Math.max(0, a - b)` is
truncated subtraction on `Nat`; `Math.ceil(t / 1000)` is
`(t + 999) / 1000`. -/
def checkOTPStatus (s : OtpStore) (orderId : OrderId) (now : Nat) :
    OtpStore × StatusResult :=
  match mapGet s orderId with
  | none => (s, ⟨false, false, true, 0, 0, 0⟩)
  | some otpData =>
    let timeRemaining := otpData.expiresAt - now
    let remainingAttempts := maxAttempts - otpData.attempts
    (s, ⟨true, otpData.verified, timeRemaining = 0, otpData.attempts,
         remainingAttempts, (timeRemaining + 999) / 1000⟩)

/-- Result shape of `resendOTP`. -/
structure ResendResult where
  success : Bool
  message : String
  otp : Option Nat
deriving DecidableEq, Repr

/-- `OTPManager.resendOTP(orderId)`: requires an existing record to
recover the phone, then delegates to `generateOTP`. -/
def resendOTP (s : OtpStore) (orderId : OrderId) (k now : Nat) :
    OtpStore × ResendResult :=
  match mapGet s orderId with
  | none => (s, ⟨false, "Cannot resend OTP. Please generate a new one.", none⟩)
  | some otpData =>
    let r := generateOTP s orderId otpData.phone k now
    (r.1, ⟨true, "New OTP sent successfully", some r.2⟩)

/-- `OTPManager.cleanupExpiredOTPs()`: delete every entry with
`now > expiresAt + 300000`. -/
def cleanupExpiredOTPs (s : OtpStore) (now : Nat) : OtpStore :=
  s.filter (fun p => !(decide (now > p.2.expiresAt + graceWindow)))

/-- Result shape of `getStatistics`.  `active = total - verified - expired`
can be negative in JS, hence `Int`; `successRate` is
`(verified / total) * 100` as an exact rational (the JS `toFixed(1)`
formatting is display only). -/
structure OtpStatistics where
  total : Nat
  verified : Nat
  expired : Nat
  active : Int
  successRate : ℚ
deriving DecidableEq, Repr

/-- `OTPManager.getStatistics()`. -/
def getStatistics (s : OtpStore) (now : Nat) : OtpStatistics :=
  let total := s.length
  let verified := (s.filter (fun p => p.2.verified)).length
  let expired := (s.filter (fun p => decide (now > p.2.expiresAt))).length
  { total := total, verified := verified, expired := expired,
    active := (total : Int) - verified - expired,
    successRate := if total > 0 then (verified : ℚ) / total * 100 else 0 }

/-- One externally triggerable operation of the manager (the sweep is
fired by the interval timer set up in `init`). -/
inductive OtpOp where
  | generate (orderId : OrderId) (phone : String) (k now : Nat)
  | verify (orderId : OrderId) (inputOTP now : Nat)
  | resend (orderId : OrderId) (k now : Nat)
  | checkStatus (orderId : OrderId) (now : Nat)
  | sweep (now : Nat)

/-- Effect of one operation on the store. -/
def applyOp (s : OtpStore) : OtpOp → OtpStore
  | .generate oid ph k now => (generateOTP s oid ph k now).1
  | .verify oid c now => (verifyOTP s oid c now).1
  | .resend oid k now => (resendOTP s oid k now).1
  | .checkStatus oid now => (checkOTPStatus s oid now).1
  | .sweep now => cleanupExpiredOTPs s now

/-- Run a sequence of operations from a store. -/
def runOps (s : OtpStore) : List OtpOp → OtpStore
  | [] => s
  | op :: ops => runOps (applyOp s op) ops

/-! ### Association-list lemmas -/

theorem mapGet_mapSet_self (s : OtpStore) (k : OrderId) (v : OtpRecord) :
    mapGet (mapSet s k v) k = some v := by
  induction s with
  | nil => simp [mapSet, mapGet]
  | cons p t ih =>
    by_cases h : p.1 = k
    · simp [mapSet, mapGet, h]
    · simp [mapSet, mapGet, h, ih]

theorem mapGet_mapSet_ne (s : OtpStore) (k k' : OrderId) (v : OtpRecord)
    (h : k' ≠ k) : mapGet (mapSet s k v) k' = mapGet s k' := by
  have hne : k ≠ k' := Ne.symm h
  induction s with
  | nil => simp [mapSet, mapGet, hne]
  | cons p t ih =>
    by_cases hp : p.1 = k
    · have hp' : p.1 ≠ k' := by rw [hp]; exact hne
      simp [mapSet, mapGet, hp, hp', hne]
    · simp only [mapSet, if_neg hp, mapGet, ih]

theorem mapGet_mapDelete_self (s : OtpStore) (k : OrderId) :
    mapGet (mapDelete s k) k = none := by
  induction s with
  | nil => simp [mapDelete, mapGet]
  | cons p t ih =>
    by_cases h : p.1 = k
    · simp [mapDelete, h, ih]
    · simp [mapDelete, mapGet, h, ih]

theorem mem_mapSet (s : OtpStore) (k : OrderId) (v : OtpRecord)
    (p : OrderId × OtpRecord) (h : p ∈ mapSet s k v) : p = (k, v) ∨ p ∈ s := by
  induction s with
  | nil => simpa [mapSet] using h
  | cons q t ih =>
    by_cases hq : q.1 = k
    · simp only [mapSet, if_pos hq, List.mem_cons] at h
      rcases h with h | h
      · exact Or.inl h
      · exact Or.inr (List.mem_cons_of_mem _ h)
    · simp only [mapSet, if_neg hq, List.mem_cons] at h
      rcases h with h | h
      · exact Or.inr (h ▸ List.mem_cons_self _ _)
      · rcases ih h with h1 | h1
        · exact Or.inl h1
        · exact Or.inr (List.mem_cons_of_mem _ h1)

theorem mem_mapDelete (s : OtpStore) (k : OrderId)
    (p : OrderId × OtpRecord) (h : p ∈ mapDelete s k) : p ∈ s := by
  induction s with
  | nil => simp [mapDelete] at h
  | cons q t ih =>
    by_cases hq : q.1 = k
    · simp only [mapDelete, if_pos hq] at h
      exact List.mem_cons_of_mem _ (ih h)
    · simp only [mapDelete, if_neg hq, List.mem_cons] at h
      rcases h with h | h
      · exact h ▸ List.mem_cons_self _ _
      · exact List.mem_cons_of_mem _ (ih h)

theorem mapGet_mem (s : OtpStore) (k : OrderId) (d : OtpRecord)
    (h : mapGet s k = some d) : (k, d) ∈ s := by
  induction s with
  | nil => simp [mapGet] at h
  | cons p t ih =>
    by_cases hp : p.1 = k
    · simp only [mapGet, if_pos hp, Option.some.injEq] at h
      exact Or.inl (by rw [← hp, ← h]) |> List.mem_cons.mpr
    · simp only [mapGet, if_neg hp] at h
      exact List.mem_cons_of_mem _ (ih h)

/-! ### The attempts invariant -/

/-- Every record in the store has consumed at most `maxAttempts` tries. -/
def AttemptsBounded (s : OtpStore) : Prop :=
  ∀ p ∈ s, (p : OrderId × OtpRecord).2.attempts ≤ maxAttempts

theorem attemptsBounded_nil : AttemptsBounded [] := by
  intro p hp
  simp at hp

theorem attemptsBounded_mapSet (s : OtpStore) (k : OrderId) (v : OtpRecord)
    (hs : AttemptsBounded s) (hv : v.attempts ≤ maxAttempts) :
    AttemptsBounded (mapSet s k v) := by
  intro p hp
  rcases mem_mapSet s k v p hp with h | h
  · rw [h]; exact hv
  · exact hs p h

theorem attemptsBounded_mapDelete (s : OtpStore) (k : OrderId)
    (hs : AttemptsBounded s) : AttemptsBounded (mapDelete s k) :=
  fun p hp => hs p (mem_mapDelete s k p hp)

theorem attemptsBounded_generate (s : OtpStore) (oid : OrderId) (ph : String)
    (k now : Nat) (hs : AttemptsBounded s) :
    AttemptsBounded (generateOTP s oid ph k now).1 := by
  unfold generateOTP
  exact attemptsBounded_mapSet s oid _ hs (by simp [maxAttempts])

theorem attemptsBounded_verify (s : OtpStore) (oid : OrderId) (c now : Nat)
    (hs : AttemptsBounded s) : AttemptsBounded (verifyOTP s oid c now).1 := by
  unfold verifyOTP
  cases hget : mapGet s oid with
  | none => exact hs
  | some d =>
    by_cases hexp : now > d.expiresAt
    · simpa [hexp] using attemptsBounded_mapDelete s oid hs
    · by_cases hmax : d.attempts ≥ maxAttempts
      · simpa [hexp, hmax] using hs
      · have hlt : d.attempts + 1 ≤ maxAttempts := Nat.succ_le_of_lt (Nat.lt_of_not_ge hmax)
        by_cases hcode : d.otp = c
        · simpa [hexp, hmax, hcode] using
            attemptsBounded_mapSet s oid _ hs hlt
        · simpa [hexp, hmax, hcode] using
            attemptsBounded_mapSet s oid _ hs hlt

theorem attemptsBounded_resend (s : OtpStore) (oid : OrderId) (k now : Nat)
    (hs : AttemptsBounded s) : AttemptsBounded (resendOTP s oid k now).1 := by
  unfold resendOTP
  cases hget : mapGet s oid with
  | none => exact hs
  | some d => exact attemptsBounded_generate s oid d.phone k now hs

theorem checkOTPStatus_store_eq (s : OtpStore) (oid : OrderId) (now : Nat) :
    (checkOTPStatus s oid now).1 = s := by
  unfold checkOTPStatus
  cases mapGet s oid <;> rfl

theorem attemptsBounded_sweep (s : OtpStore) (now : Nat)
    (hs : AttemptsBounded s) : AttemptsBounded (cleanupExpiredOTPs s now) :=
  fun p hp => hs p (List.mem_of_mem_filter hp)

theorem attemptsBounded_applyOp (s : OtpStore) (op : OtpOp)
    (hs : AttemptsBounded s) : AttemptsBounded (applyOp s op) := by
  cases op with
  | generate oid ph k now => exact attemptsBounded_generate s oid ph k now hs
  | verify oid c now => exact attemptsBounded_verify s oid c now hs
  | resend oid k now => exact attemptsBounded_resend s oid k now hs
  | checkStatus oid now =>
      simpa [applyOp, checkOTPStatus_store_eq] using hs
  | sweep now => exact attemptsBounded_sweep s now hs

theorem attemptsBounded_runOps (s : OtpStore) (ops : List OtpOp)
    (hs : AttemptsBounded s) : AttemptsBounded (runOps s ops) := by
  induction ops generalizing s with
  | nil => exact hs
  | cons op ops ih => exact ih _ (attemptsBounded_applyOp s op hs)

/-! ### Claims -/

/-- Claim C1, counterexample: immediately after `generateOTP` (stored code
1000), verifying with the correct code on the first attempt succeeds but
returns `remainingAttempts = 2`, not `maxAttempts = 3` as the claim
states: the success branch returns `maxAttempts - attempts` after the
increment. -/
theorem claim1_counterexample :
    (verifyOTP (generateOTP [] 1 "5550100" 0 0).1 1 1000 0).2.success = true ∧
    (verifyOTP (generateOTP [] 1 "5550100" 0 0).1 1 1000 0).2.remainingAttempts = 2 ∧
    ¬ (verifyOTP (generateOTP [] 1 "5550100" 0 0).1 1 1000 0).2.remainingAttempts = 3 := by
  refine ⟨rfl, rfl, by decide⟩

/-- Claim C1 (amended): for a live, unexpired record with attempts below
the maximum, verifying with the correct stored code returns
`success = true`, sets `verified = true` and `verifiedAt = now`, and
returns `remainingAttempts = maxAttempts - (attempts + 1)` — which is
`2`, not `3`, on a first attempt. -/
theorem claim1_verify_correct_code (s : OtpStore) (oid : OrderId) (d : OtpRecord)
    (now : Nat) (hget : mapGet s oid = some d) (hexp : ¬ now > d.expiresAt)
    (hatt : d.attempts < maxAttempts) :
    (verifyOTP s oid d.otp now).2.success = true ∧
    (verifyOTP s oid d.otp now).2.remainingAttempts = maxAttempts - (d.attempts + 1) ∧
    mapGet (verifyOTP s oid d.otp now).1 oid =
      some { d with attempts := d.attempts + 1, verified := true,
                    verifiedAt := some now } := by
  have hmax : ¬ d.attempts ≥ maxAttempts := Nat.not_le.mpr hatt
  unfold verifyOTP
  rw [hget]
  simp only [if_neg hexp, if_neg hmax, if_pos rfl]
  exact ⟨rfl, rfl, mapGet_mapSet_self s oid _⟩

/-- Witness for C1 (amended) at a concrete instance: order 5 generated at
time 100 with oracle 7 (code 1007), verified correctly at time 200. -/
theorem claim1_verify_correct_code_witness :
    (verifyOTP (generateOTP [] 5 "5550123" 7 100).1 5 1007 200).2.success = true ∧
    (verifyOTP (generateOTP [] 5 "5550123" 7 100).1 5 1007 200).2.remainingAttempts = 2 ∧
    mapGet (verifyOTP (generateOTP [] 5 "5550123" 7 100).1 5 1007 200).1 5 =
      some { otp := 1007, phone := "5550123", attempts := 1, generatedAt := 100,
             expiresAt := 300100, verified := true, verifiedAt := some 200 } := by
  have h := claim1_verify_correct_code (generateOTP [] 5 "5550123" 7 100).1 5
    { otp := 1007, phone := "5550123", attempts := 0, generatedAt := 100,
      expiresAt := 300100, verified := false, verifiedAt := none } 200
    (by decide) (by decide) (by decide)
  exact h

/-- Claim C4: `generateOTP` always succeeds, the returned code lies in
[1000, 9999], and the order's record is replaced by a fresh one with
`attempts = 0`, `verified = false`, `generatedAt = now` and
`expiresAt = now + 5` minutes. -/
theorem claim4_generate_fresh_record (s : OtpStore) (oid : OrderId) (ph : String)
    (k now : Nat) :
    1000 ≤ (generateOTP s oid ph k now).2 ∧
    (generateOTP s oid ph k now).2 ≤ 9999 ∧
    mapGet (generateOTP s oid ph k now).1 oid =
      some { otp := (generateOTP s oid ph k now).2, phone := ph, attempts := 0,
             generatedAt := now, expiresAt := now + otpExpiry, verified := false,
             verifiedAt := none } := by
  refine ⟨Nat.le_add_right _ _, ?_, ?_⟩
  · have h : k % 9000 < 9000 := Nat.mod_lt _ (by decide)
    show 1000 + k % 9000 ≤ 9999
    omega
  · exact mapGet_mapSet_self s oid _

/-- Claim C2: over any sequence of operations from the empty store, no
record's `attempts` exceeds `maxAttempts = 3`; and once a record has
`attempts ≥ 3`, any further `verifyOTP` on it fails and never increments
its `attempts`, regardless of the supplied code. -/
theorem claim2_attempts_never_exceed_max :
    (∀ (ops : List OtpOp) (p : OrderId × OtpRecord), p ∈ runOps [] ops →
      p.2.attempts ≤ maxAttempts) ∧
    (∀ (s : OtpStore) (oid : OrderId) (d : OtpRecord) (c now : Nat),
      mapGet s oid = some d → d.attempts ≥ maxAttempts →
      (verifyOTP s oid c now).2.success = false ∧
      ∀ d' : OtpRecord, mapGet (verifyOTP s oid c now).1 oid = some d' →
        d'.attempts = d.attempts) := by
  constructor
  · intro ops p hp
    exact attemptsBounded_runOps [] ops attemptsBounded_nil p hp
  · intro s oid d c now hget hmax
    unfold verifyOTP
    rw [hget]
    by_cases hexp : now > d.expiresAt
    · simp only [if_pos hexp]
      refine ⟨by trivial, ?_⟩
      intro d' hd'
      rw [mapGet_mapDelete_self] at hd'
      exact absurd hd' (by simp)
    · simp only [if_neg hexp, if_pos hmax]
      refine ⟨by trivial, ?_⟩
      intro d' hd'
      rw [hget] at hd'
      cases hd'
      rfl

/-- Witness for C2: a record generated from the empty store respects the
bound, and on a store holding an exhausted record (attempts = 3) a
verify with the correct code 1234 still fails. -/
theorem claim2_attempts_never_exceed_max_witness :
    ((1 : OrderId),
      ({ otp := 1000, phone := "5550100", attempts := 0, generatedAt := 0,
         expiresAt := 300000, verified := false, verifiedAt := none } : OtpRecord)).2.attempts
      ≤ maxAttempts ∧
    (verifyOTP [(1, { otp := 1234, phone := "5550100", attempts := 3, generatedAt := 0,
                      expiresAt := 300000, verified := false, verifiedAt := none })]
        1 1234 10).2.success = false := by
  constructor
  · exact claim2_attempts_never_exceed_max.1 [.generate 1 "5550100" 0 0] _ (by decide)
  · exact (claim2_attempts_never_exceed_max.2
      [(1, { otp := 1234, phone := "5550100", attempts := 3, generatedAt := 0,
             expiresAt := 300000, verified := false, verifiedAt := none })]
      1 { otp := 1234, phone := "5550100", attempts := 3, generatedAt := 0,
          expiresAt := 300000, verified := false, verifiedAt := none }
      1234 10 (by decide) (by decide)).1

/-- Claim C3: `verifyOTP` on an existing record whose `expiresAt` is in
the past deletes the record and fails with `remainingAttempts = 0` and
the message "OTP has expired", regardless of the attempts count (the
expiry check precedes the attempts check), and a subsequent
`checkOTPStatus` reports `recordExists = false`. -/
theorem claim3_verify_expired_deletes (s : OtpStore) (oid : OrderId) (d : OtpRecord)
    (c now : Nat) (hget : mapGet s oid = some d) (hexp : now > d.expiresAt) :
    (verifyOTP s oid c now).2.success = false ∧
    (verifyOTP s oid c now).2.remainingAttempts = 0 ∧
    (verifyOTP s oid c now).2.message = "OTP has expired" ∧
    (verifyOTP s oid c now).1 = mapDelete s oid ∧
    (checkOTPStatus (verifyOTP s oid c now).1 oid now).2.recordExists = false := by
  unfold verifyOTP
  rw [hget]
  simp only [if_pos hexp]
  refine ⟨by trivial, by trivial, by trivial, by trivial, ?_⟩
  unfold checkOTPStatus
  rw [mapGet_mapDelete_self]

/-- Witness for C3: order 1 generated at time 0 (expires at 300000),
verified at time 400000 with attempts already at 3 and an arbitrary
code 99. -/
theorem claim3_verify_expired_deletes_witness :
    (verifyOTP [(1, { otp := 1000, phone := "5550100", attempts := 3, generatedAt := 0,
                      expiresAt := 300000, verified := false, verifiedAt := none })]
        1 99 400000).2.success = false ∧
    (verifyOTP [(1, { otp := 1000, phone := "5550100", attempts := 3, generatedAt := 0,
                      expiresAt := 300000, verified := false, verifiedAt := none })]
        1 99 400000).2.message = "OTP has expired" ∧
    (checkOTPStatus
        (verifyOTP [(1, { otp := 1000, phone := "5550100", attempts := 3, generatedAt := 0,
                          expiresAt := 300000, verified := false, verifiedAt := none })]
            1 99 400000).1 1 400000).2.recordExists = false := by
  have h := claim3_verify_expired_deletes
    [(1, { otp := 1000, phone := "5550100", attempts := 3, generatedAt := 0,
           expiresAt := 300000, verified := false, verifiedAt := none })]
    1 { otp := 1000, phone := "5550100", attempts := 3, generatedAt := 0,
        expiresAt := 300000, verified := false, verifiedAt := none }
    99 400000 (by decide) (by decide)
  exact ⟨h.1, h.2.2.1, h.2.2.2.2⟩

/-- Claim C9: `verifyOTP` never consults the `verified` flag — on an
unexpired, already-verified record with attempts below the maximum, a
verify with the matching code succeeds again and consumes another
attempt. -/
theorem claim9_verify_ignores_verified_flag (s : OtpStore) (oid : OrderId)
    (d : OtpRecord) (now : Nat) (hget : mapGet s oid = some d)
    (hexp : ¬ now > d.expiresAt) (hatt : d.attempts < maxAttempts)
    (_hver : d.verified = true) :
    (verifyOTP s oid d.otp now).2.success = true ∧
    mapGet (verifyOTP s oid d.otp now).1 oid =
      some { d with attempts := d.attempts + 1, verified := true,
                    verifiedAt := some now } := by
  have hmax : ¬ d.attempts ≥ maxAttempts := Nat.not_le.mpr hatt
  unfold verifyOTP
  rw [hget]
  simp only [if_neg hexp, if_neg hmax, if_pos rfl]
  exact ⟨rfl, mapGet_mapSet_self s oid _⟩

/-- Witness for C9: after a first successful verify at time 0 the record
of order 1 is verified with attempts = 1; a second verify with the same
code at time 5 succeeds again. -/
theorem claim9_verify_ignores_verified_flag_witness :
    (verifyOTP (verifyOTP (generateOTP [] 1 "5550100" 0 0).1 1 1000 0).1
        1 1000 5).2.success = true ∧
    mapGet (verifyOTP (verifyOTP (generateOTP [] 1 "5550100" 0 0).1 1 1000 0).1
        1 1000 5).1 1 =
      some { otp := 1000, phone := "5550100", attempts := 2, generatedAt := 0,
             expiresAt := 300000, verified := true, verifiedAt := some 5 } := by
  have h := claim9_verify_ignores_verified_flag
    (verifyOTP (generateOTP [] 1 "5550100" 0 0).1 1 1000 0).1 1
    { otp := 1000, phone := "5550100", attempts := 1, generatedAt := 0,
      expiresAt := 300000, verified := true, verifiedAt := some 0 } 5
    (by decide) (by decide) (by decide) (by decide)
  exact h

/-- Claim C5: `resendOTP` fails exactly when no record exists (leaving
the store unchanged); on any existing record — expired or exhausted
included — it delegates to `generateOTP` with the stored phone,
producing a fresh record with `attempts = 0`, `verified = false` and a
new expiry. -/
theorem claim5_resend_delegates_to_generate (s : OtpStore) (oid : OrderId)
    (k now : Nat) :
    ((resendOTP s oid k now).2.success = false ↔ mapGet s oid = none) ∧
    (mapGet s oid = none → (resendOTP s oid k now).1 = s) ∧
    (∀ d : OtpRecord, mapGet s oid = some d →
      (resendOTP s oid k now).1 = (generateOTP s oid d.phone k now).1 ∧
      (resendOTP s oid k now).2.otp = some (genCode k) ∧
      mapGet (resendOTP s oid k now).1 oid =
        some { otp := genCode k, phone := d.phone, attempts := 0, generatedAt := now,
               expiresAt := now + otpExpiry, verified := false, verifiedAt := none }) := by
  cases hget : mapGet s oid with
  | none =>
    unfold resendOTP
    rw [hget]
    refine ⟨by simp, fun _ => rfl, ?_⟩
    intro d hd
    exact absurd hd (by simp)
  | some d0 =>
    unfold resendOTP
    rw [hget]
    refine ⟨by simp, by simp, ?_⟩
    intro d hd
    injection hd with hd
    subst hd
    exact ⟨rfl, rfl, mapGet_mapSet_self s oid _⟩

/-- Witness for C5: resend on the empty store fails; resend of order 1
holding an expired, exhausted record regenerates it with the stored
phone, oracle 5 (code 1005) at time 700000. -/
theorem claim5_resend_delegates_to_generate_witness :
    (resendOTP [] 1 0 0).2.success = false ∧
    mapGet (resendOTP [(1, { otp := 1000, phone := "5550100", attempts := 3,
                             generatedAt := 0, expiresAt := 300000, verified := false,
                             verifiedAt := none })] 1 5 700000).1 1 =
      some { otp := 1005, phone := "5550100", attempts := 0, generatedAt := 700000,
             expiresAt := 1000000, verified := false, verifiedAt := none } := by
  constructor
  · exact (claim5_resend_delegates_to_generate [] 1 0 0).1.mpr (by decide)
  · exact ((claim5_resend_delegates_to_generate
      [(1, { otp := 1000, phone := "5550100", attempts := 3, generatedAt := 0,
             expiresAt := 300000, verified := false, verifiedAt := none })]
      1 5 700000).2.2
      { otp := 1000, phone := "5550100", attempts := 3, generatedAt := 0,
        expiresAt := 300000, verified := false, verifiedAt := none }
      (by decide)).2.2

/-- Claim C6: the cleanup sweep keeps exactly the entries with
`now ≤ expiresAt + graceWindow`, irrespective of their `verified`
state, and it is idempotent at a fixed time. -/
theorem claim6_sweep_exact_and_idempotent (s : OtpStore) (now : Nat) :
    (∀ p : OrderId × OtpRecord,
      p ∈ cleanupExpiredOTPs s now ↔
        p ∈ s ∧ ¬ now > p.2.expiresAt + graceWindow) ∧
    cleanupExpiredOTPs (cleanupExpiredOTPs s now) now = cleanupExpiredOTPs s now := by
  constructor
  · intro p
    simp [cleanupExpiredOTPs, List.mem_filter]
  · unfold cleanupExpiredOTPs
    induction s with
    | nil => rfl
    | cons q t ih =>
      by_cases hq : now > q.2.expiresAt + graceWindow
      · simp [hq, ih]
      · simp [hq, ih]

/-- Claim C7: `getStatistics` is a pure aggregate: `expired` counts the
records with `expiresAt < now` (no grace adjustment),
`active = total - verified - expired`, `successRate` is 0 on an empty
store and `verified / total * 100` otherwise; on the concrete run that
generates order 2 at time 0 and order 1 at time 200000, verifies order 1
successfully, and queries at time 300001 (order 2 now expired), it
reports total 2, verified 1, expired 1, active 0, successRate 50. -/
theorem claim7_statistics_aggregate :
    (∀ (s : OtpStore) (now : Nat),
      (getStatistics s now).active =
        ((getStatistics s now).total : Int) - (getStatistics s now).verified -
          (getStatistics s now).expired) ∧
    (∀ (s : OtpStore) (now : Nat),
      (getStatistics s now).expired =
        (s.filter (fun p => decide (p.2.expiresAt < now))).length) ∧
    (∀ (s : OtpStore) (now : Nat), (getStatistics s now).total = 0 →
      (getStatistics s now).successRate = 0) ∧
    ((getStatistics
        (verifyOTP (generateOTP (generateOTP [] 2 "5550199" 1 0).1 1 "5550100" 0 200000).1
          1 1000 200000).1 300001).total = 2 ∧
     (getStatistics
        (verifyOTP (generateOTP (generateOTP [] 2 "5550199" 1 0).1 1 "5550100" 0 200000).1
          1 1000 200000).1 300001).verified = 1 ∧
     (getStatistics
        (verifyOTP (generateOTP (generateOTP [] 2 "5550199" 1 0).1 1 "5550100" 0 200000).1
          1 1000 200000).1 300001).expired = 1 ∧
     (getStatistics
        (verifyOTP (generateOTP (generateOTP [] 2 "5550199" 1 0).1 1 "5550100" 0 200000).1
          1 1000 200000).1 300001).active = 0 ∧
     (getStatistics
        (verifyOTP (generateOTP (generateOTP [] 2 "5550199" 1 0).1 1 "5550100" 0 200000).1
          1 1000 200000).1 300001).successRate = 50) := by
  refine ⟨fun s now => rfl, fun s now => rfl, ?_, rfl, rfl, rfl, by decide, ?_⟩
  · intro s now h
    unfold getStatistics at h ⊢
    simp only at h
    simp [h]
  · show ((1 : Nat) : ℚ) / ((2 : Nat) : ℚ) * 100 = 50
    norm_num

/-- Witness for C7: the total-zero branch applied to the empty store. -/
theorem claim7_statistics_aggregate_witness :
    (getStatistics [] 0).total = 0 ∧ (getStatistics [] 0).successRate = 0 := by
  exact ⟨rfl, claim7_statistics_aggregate.2.2.1 [] 0 rfl⟩

/-- Claim C8: `checkOTPStatus` never mutates the store; on a missing
record it reports `recordExists = false`, `expired = true`,
`attempts = 0`; on a record past its expiry it reports
`recordExists = true` and `expired = true` (no deletion). -/
theorem claim8_checkStatus_pure (s : OtpStore) (oid : OrderId) (now : Nat) :
    (checkOTPStatus s oid now).1 = s ∧
    (mapGet s oid = none →
      (checkOTPStatus s oid now).2.recordExists = false ∧
      (checkOTPStatus s oid now).2.expired = true ∧
      (checkOTPStatus s oid now).2.attempts = 0) ∧
    (∀ d : OtpRecord, mapGet s oid = some d → d.expiresAt ≤ now →
      (checkOTPStatus s oid now).2.recordExists = true ∧
      (checkOTPStatus s oid now).2.expired = true) := by
  refine ⟨checkOTPStatus_store_eq s oid now, ?_, ?_⟩
  · intro h
    unfold checkOTPStatus
    rw [h]
    exact ⟨rfl, rfl, rfl⟩
  · intro d hd hpast
    unfold checkOTPStatus
    rw [hd]
    refine ⟨rfl, ?_⟩
    simp [Nat.sub_eq_zero_of_le hpast]

/-- Witness for C8: a store holding an expired record for order 1 at time
400000 — the store is unchanged, the expired record is still reported
as existing, and a missing order 2 reports not-exists. -/
theorem claim8_checkStatus_pure_witness :
    (checkOTPStatus [(1, { otp := 1000, phone := "5550100", attempts := 1,
                           generatedAt := 0, expiresAt := 300000, verified := false,
                           verifiedAt := none })] 1 400000).1 =
      [(1, { otp := 1000, phone := "5550100", attempts := 1, generatedAt := 0,
             expiresAt := 300000, verified := false, verifiedAt := none })] ∧
    (checkOTPStatus [(1, { otp := 1000, phone := "5550100", attempts := 1,
                           generatedAt := 0, expiresAt := 300000, verified := false,
                           verifiedAt := none })] 1 400000).2.recordExists = true ∧
    (checkOTPStatus [(1, { otp := 1000, phone := "5550100", attempts := 1,
                           generatedAt := 0, expiresAt := 300000, verified := false,
                           verifiedAt := none })] 1 400000).2.expired = true ∧
    (checkOTPStatus [] 2 0).2.recordExists = false := by
  have h := claim8_checkStatus_pure
    [(1, { otp := 1000, phone := "5550100", attempts := 1, generatedAt := 0,
           expiresAt := 300000, verified := false, verifiedAt := none })] 1 400000
  have h2 := h.2.2
    { otp := 1000, phone := "5550100", attempts := 1, generatedAt := 0,
      expiresAt := 300000, verified := false, verifiedAt := none }
    (by decide) (by decide)
  exact ⟨h.1, h2.1, h2.2, ((claim8_checkStatus_pure [] 2 0).2.1 (by decide)).1⟩

/-- Claim C10: reachable overlap of `verified` and `expired` — generate
order 1 at time 0, verify it successfully at time 0, query statistics at
time 300001 (past expiry, within the grace window, sweep removing
nothing): total 1, verified 1, expired 1 and active -1. -/
theorem claim10_active_can_be_negative :
    (getStatistics (verifyOTP (generateOTP [] 1 "5550100" 0 0).1 1 1000 0).1
        300001).total = 1 ∧
    (getStatistics (verifyOTP (generateOTP [] 1 "5550100" 0 0).1 1 1000 0).1
        300001).verified = 1 ∧
    (getStatistics (verifyOTP (generateOTP [] 1 "5550100" 0 0).1 1 1000 0).1
        300001).expired = 1 ∧
    (getStatistics (verifyOTP (generateOTP [] 1 "5550100" 0 0).1 1 1000 0).1
        300001).active = -1 ∧
    cleanupExpiredOTPs (verifyOTP (generateOTP [] 1 "5550100" 0 0).1 1 1000 0).1
        300001 =
      (verifyOTP (generateOTP [] 1 "5550100" 0 0).1 1 1000 0).1 := by
  refine ⟨rfl, rfl, rfl, by decide, by decide⟩
